import Mathlib

/-!
Shallow embedding of the pdok-map-viewer application (an Angular/OpenLayers
map viewer for Dutch PDOK geodata) and proofs about it.  The embedded code
comes from `src/app/core/services/bag-layer.ts`, `brt-layer.ts`,
`layer-manager.ts` and `src/app/app.ts`.  JavaScript numbers are modelled as
exact rationals; external effects (HTTP fetches, the OpenLayers and
ol-mapbox-style library calls, `localStorage`, `JSON.parse`) are modelled as
explicit parameters recording their outcome.
-/

namespace Pdok

/-- A tile matrix of an OGC tile matrix set (`map.interface.ts`); only the
fields the embedded services read are carried. -/
structure TileMatrix where
  id : String
  scaleDenominator : ℚ
  deriving DecidableEq

/-- An OGC tile matrix set (`map.interface.ts`), restricted to the fields the
embedded services read. -/
structure TileMatrixSet where
  id : String
  tileMatrices : List TileMatrix
  deriving DecidableEq

/-- The state of an OpenLayers layer object that the embedded services
observe or mutate: its resolution window, its visibility flag and the
properties set through `layer.set`. -/
structure OlLayer where
  maxResolution : WithTop ℚ
  minResolution : ℚ
  visible : Bool
  propId : Option String := none
  deriving DecidableEq

/-- `AppLayer` from `layer-manager.ts`: an overlay layer entry. -/
structure AppLayer where
  id : String
  name : String
  visible : Bool
  layer : OlLayer
  deriving DecidableEq

/-- `AppLayerUI` from `layer-manager.ts`: an overlay entry extended with the
derived availability flag. -/
structure AppLayerUI extends AppLayer where
  isAvailable : Bool
  deriving DecidableEq

/-- `BaseMap` from `layer-manager.ts`. -/
structure BaseMap where
  id : String
  name : String
  layer : OlLayer
  deriving DecidableEq

namespace BagLayerService

/-- `pdokBaseUrl` of `BagLayerService` (`bag-layer.ts`). -/
def pdokBaseUrl : String := "https://api.pdok.nl/lv/bag/ogc/v1"

/-- `tileMatrixSetId` of `BagLayerService` (`bag-layer.ts`). -/
def tileMatrixSetId : String := "NetherlandsRDNewQuad"

/-- An OpenLayers tile coordinate `[z, x, y]`. -/
structure TileCoord where
  z : Int
  x : Int
  y : Int
  deriving DecidableEq

/-- The `tileUrlFunction` closure built in `buildVectorTileLayer`
(`bag-layer.ts` lines 332-341).  A `null` tile coordinate yields
`undefined`; otherwise the zoom path segment is forced to 12 and the
coordinate components x = `tileCoord[1]`, y = `tileCoord[2]` fill the
template `.../tiles/NetherlandsRDNewQuad/z/y/x?f=mvt`. -/
def tileUrlFunction (tileCoord : Option TileCoord) : Option String :=
  match tileCoord with
  | none => none
  | some tc =>
    let z : Int := 12
    let x := tc.x
    let y := tc.y
    some (pdokBaseUrl ++ "/tiles/" ++ tileMatrixSetId ++ "/" ++ toString z ++ "/" ++
      toString y ++ "/" ++ toString x ++ "?f=mvt")

end BagLayerService

namespace LayerManager

/-- `toggleLayerVisibility` of `layer-manager.ts` (lines 265-271): the update
applied to the `_layers` signal value. -/
def toggleLayerVisibility (currentLayers : List AppLayer) (id : String) (visible : Bool) :
    List AppLayer :=
  currentLayers.map (fun l => if l.id = id then { l with visible := visible } else l)

/-- The base-map portion of the `LayerManager` state: the `_availableBaseMaps`
and `_activeBaseMapId` signals (`layer-manager.ts`). -/
structure BaseMapState where
  availableBaseMaps : List BaseMap
  activeBaseMapId : String
  deriving DecidableEq

/-- `updateBaseMapVisibility` (`layer-manager.ts` lines 231-236): calls
`setVisible(basemap.id === activeId)` on every available base map's
OpenLayers layer. -/
def updateBaseMapVisibility (st : BaseMapState) : BaseMapState :=
  { st with
    availableBaseMaps := st.availableBaseMaps.map (fun basemap =>
      { basemap with
        layer := { basemap.layer with visible := basemap.id == st.activeBaseMapId } }) }

/-- `setActiveBaseMap` (`layer-manager.ts` lines 225-229). -/
def setActiveBaseMap (st : BaseMapState) (id : String) : BaseMapState :=
  updateBaseMapVisibility { st with activeBaseMapId := id }

/-- `addBaseMap` (`layer-manager.ts` lines 238-242): sets the `id` property on
the layer, appends the entry and refreshes base-map visibility. -/
def addBaseMap (st : BaseMapState) (id name : String) (layer : OlLayer) : BaseMapState :=
  let layer := { layer with propId := some id }
  updateBaseMapVisibility
    { st with availableBaseMaps := st.availableBaseMaps ++ [⟨id, name, layer⟩] }

/-- `removeBaseMap` (`layer-manager.ts` lines 244-250): refuses to remove the
active base map, otherwise filters out the entries with the given id. -/
def removeBaseMap (st : BaseMapState) (id : String) : BaseMapState :=
  if st.activeBaseMapId = id then st
  else
    { st with availableBaseMaps := st.availableBaseMaps.filter (fun bm => bm.id != id) }

/-- `initializeBaseMapsAsync` (`layer-manager.ts` lines 162-198).  The OSM
layer creation is awaited without a try/catch, so a completed run is one in
which it succeeded; `brtOk` and `luchtfotoOk` record whether the BRT and
Luchtfoto layer creations succeeded, and the three `OlLayer` arguments are
the layers those creations would return. -/
def initializeBaseMapsAsync (st : BaseMapState) (osmLayer brtLayer luchtfotoLayer : OlLayer)
    (brtOk luchtfotoOk : Bool) : BaseMapState :=
  let baseMaps : List BaseMap :=
    [⟨"osm", "OpenStreetMap", { osmLayer with propId := some "osm" }⟩]
  let step :=
    if brtOk then
      (baseMaps ++ [(⟨"pdok-brt", "PDOK BRT", { brtLayer with propId := some "pdok-brt" }⟩ :
        BaseMap)], st)
    else (baseMaps, { st with activeBaseMapId := "osm" })
  let baseMaps := step.1
  let st := step.2
  let baseMaps :=
    if luchtfotoOk then
      baseMaps ++ [⟨"luchtfoto", "Luchtfoto", { luchtfotoLayer with propId := some "luchtfoto" }⟩]
    else baseMaps
  updateBaseMapVisibility { st with availableBaseMaps := baseMaps }

/-- The invariant of claim C8: every available base map's OpenLayers
visibility equals whether its id is the active base-map id. -/
def baseMapVisibilityInvariant (st : BaseMapState) : Prop :=
  ∀ bm ∈ st.availableBaseMaps, bm.layer.visible = (bm.id == st.activeBaseMapId)

/-- The `layersWithAvailability` computed signal (`layer-manager.ts` lines
97-129), as a function of the `_layers` signal value and the
`_currentResolution` signal value (`none` models `null`).  The OpenLayers
`setVisible` calls it performs are reflected in the `layer` field of the
returned entries. -/
def layersWithAvailability (layers : List AppLayer) (resolution : Option ℚ) :
    List AppLayerUI :=
  match resolution with
  | none => layers.map (fun layer => { toAppLayer := layer, isAvailable := false })
  | some r =>
    layers.map (fun layer =>
      let olLayer := layer.layer
      let maxRes := olLayer.maxResolution
      let minRes := olLayer.minResolution
      let isAvailable := decide ((r : WithTop ℚ) ≤ maxRes) && decide (minRes ≤ r)
      let finalVisibility := isAvailable && layer.visible
      let olLayer :=
        if olLayer.visible != finalVisibility then { olLayer with visible := finalVisibility }
        else olLayer
      { toAppLayer := { layer with layer := olLayer }, isAvailable := isAvailable })

end LayerManager

namespace BrtLayerService

/-- `pdokBaseUrl` of `BrtLayerService` (`brt-layer.ts`). -/
def pdokBaseUrl : String := "https://api.pdok.nl/kadaster/brt-achtergrondkaart/ogc/v1"

/-- `sortedMatrices` of the BRT `buildVectorTileLayer` (`brt-layer.ts` lines
96-98): JavaScript's stable `sort` with comparator
`b.scaleDenominator - a.scaleDenominator`, i.e. a stable sort into descending
scale-denominator order. -/
def sortedMatrices (tileMatrixSet : TileMatrixSet) : List TileMatrix :=
  tileMatrixSet.tileMatrices.mergeSort
    (fun a b => decide (b.scaleDenominator ≤ a.scaleDenominator))

/-- `resolutions` of the BRT `buildVectorTileLayer` (`brt-layer.ts` lines
100-104): each sorted matrix contributes `scaleDenominator * 0.00028`. -/
def resolutions (tileMatrixSet : TileMatrixSet) : List ℚ :=
  (sortedMatrices tileMatrixSet).map (fun matrix => matrix.scaleDenominator * 0.00028)

end BrtLayerService

namespace BagLayerService

/-- `sortedMatrices` of the BAG `buildVectorTileLayer` (`bag-layer.ts` lines
290-292): same stable descending sort as in `brt-layer.ts`. -/
def sortedMatrices (tileMatrixSet : TileMatrixSet) : List TileMatrix :=
  tileMatrixSet.tileMatrices.mergeSort
    (fun a b => decide (b.scaleDenominator ≤ a.scaleDenominator))

/-- `resolutions` of the BAG `buildVectorTileLayer` (`bag-layer.ts` lines
294-296). -/
def resolutions (tileMatrixSet : TileMatrixSet) : List ℚ :=
  (sortedMatrices tileMatrixSet).map (fun matrix => matrix.scaleDenominator * 0.00028)

/-- `Z11_INDEX` (`bag-layer.ts` line 304). -/
def Z11_INDEX : Nat := 11

/-- `Z13_INDEX` (`bag-layer.ts` line 305). -/
def Z13_INDEX : Nat := 13

/-- The Z12 zoom-level restriction of the BAG `buildVectorTileLayer`
(`bag-layer.ts` lines 300-320): `maxResolution` (JavaScript `Infinity`
modelled as `⊤`) and `minResolution` keep their initial values `Infinity`
and 0 unless more than `Z13_INDEX` resolutions exist, in which case they
become `resolutions[Z11_INDEX]` and `resolutions[Z13_INDEX]`. -/
def zoomRestriction (resolutions : List ℚ) : WithTop ℚ × ℚ :=
  if resolutions.length > Z13_INDEX then
    (((resolutions.getD Z11_INDEX 0 : ℚ) : WithTop ℚ), resolutions.getD Z13_INDEX 0)
  else (⊤, 0)

/-- The fields of the `VectorTileLayer` constructed by the BAG
`buildVectorTileLayer` (`bag-layer.ts` lines 278-371) that the claims
observe: the tile-grid resolutions and the layer's resolution window. -/
structure BagVectorTileLayer where
  resolutions : List ℚ
  maxResolution : WithTop ℚ
  minResolution : ℚ
  deriving DecidableEq

/-- The BAG `buildVectorTileLayer`, restricted to the observed fields. -/
def buildVectorTileLayer (tileMatrixSet : TileMatrixSet) : BagVectorTileLayer :=
  let res := resolutions tileMatrixSet
  let mm := zoomRestriction res
  { resolutions := res, maxResolution := mm.1, minResolution := mm.2 }

end BagLayerService

/-- A tile matrix set with 14 pairwise-distinct scale denominators, already
in descending order; it yields 14 resolutions, enough to trigger the Z12
restriction. -/
def cexTileMatrixSet : TileMatrixSet :=
  { id := "NetherlandsRDNewQuad",
    tileMatrices :=
      [⟨"0", 14⟩, ⟨"1", 13⟩, ⟨"2", 12⟩, ⟨"3", 11⟩, ⟨"4", 10⟩, ⟨"5", 9⟩, ⟨"6", 8⟩,
       ⟨"7", 7⟩, ⟨"8", 6⟩, ⟨"9", 5⟩, ⟨"10", 4⟩, ⟨"11", 3⟩, ⟨"12", 2⟩, ⟨"13", 1⟩] }

/-- A small tile matrix set with two distinct scale denominators, given in
ascending order so that the sort actually reorders it. -/
def sampleTileMatrixSet : TileMatrixSet :=
  { id := "NetherlandsRDNewQuad", tileMatrices := [⟨"0", 2⟩, ⟨"1", 8⟩] }

/-- A JavaScript value as read from feature properties, style paint/layout
properties and `JSON.parse` results.  `null` also stands for `undefined`
where a present-but-nullish value must be represented; objects are not
needed by the embedded code paths. -/
inductive JsVal where
  | null : JsVal
  | bool : Bool → JsVal
  | num : ℚ → JsVal
  | str : String → JsVal
  | arr : List JsVal → JsVal

/-- JavaScript truthiness of a value ( `NaN`, not representable in `ℚ`, is
outside the model). -/
def JsVal.falsy : JsVal → Bool
  | .null => true
  | .bool b => !b
  | .num q => q == 0
  | .str s => s == ""
  | .arr _ => false

/-- JavaScript truthiness. -/
def JsVal.truthy (v : JsVal) : Bool := !v.falsy

/-- Truthiness of a possibly-`undefined` value (`none` models a property
read that yields `undefined`). -/
def jsFalsy : Option JsVal → Bool
  | none => true
  | some v => v.falsy

/-- Template-literal rendering of a JavaScript number: integral values
render exactly; non-integral values render as `num/den`, a stand-in for the
JS decimal rendering (every number the proofs inspect is integral). -/
def qToString (q : ℚ) : String :=
  if q.den = 1 then toString q.num else toString q.num ++ "/" ++ toString q.den

/-- `toString` of a JavaScript value (arrays join their elements with
commas). -/
def JsVal.jsToString : JsVal → String
  | .null => "null"
  | .bool b => cond b "true" "false"
  | .num q => qToString q
  | .str s => s
  | .arr [] => ""
  | .arr [x] => x.jsToString
  | .arr (x :: y :: xs) => x.jsToString ++ "," ++ (JsVal.arr (y :: xs)).jsToString

/-- `Json.isNumber`: models `typeof v === 'number'`. -/
def JsVal.isNumber : JsVal → Bool
  | .num _ => true
  | _ => false

/-- The numeric value of a hexadecimal digit. -/
def hexDigitVal (c : Char) : Option Nat :=
  if '0' ≤ c ∧ c ≤ '9' then some (c.toNat - '0'.toNat)
  else if 'a' ≤ c ∧ c ≤ 'f' then some (c.toNat - 'a'.toNat + 10)
  else if 'A' ≤ c ∧ c ≤ 'F' then some (c.toNat - 'A'.toNat + 10)
  else none

/-- `parseInt(s, 16)`: the longest prefix of hexadecimal digits, `none` for
JavaScript's `NaN`.  Sign and whitespace handling is omitted: the call sites
only pass slices of a hex color literal. -/
def parseIntHex (s : String) : Option Nat :=
  let ds := s.data.takeWhile (fun c => (hexDigitVal c).isSome)
  if ds.isEmpty then none
  else some (ds.foldl (fun acc c => 16 * acc + (hexDigitVal c).getD 0) 0)

/-- Template-literal rendering of a `parseInt` result (`NaN` when the parse
failed). -/
def natOrNaN : Option Nat → String
  | none => "NaN"
  | some n => toString n

/-- `s.substring(a, b)` (JavaScript clamps out-of-range indices). -/
def jsSubstring (s : String) (a b : Nat) : String :=
  ((s.data.drop a).take (b - a)).asString

/-- `color.replace` of the first `#` with the empty string. -/
def removeFirstHash : List Char → List Char
  | [] => []
  | c :: cs => if c = '#' then cs else c :: removeFirstHash cs

/-- Whether `pat` occurs as a contiguous subsequence of `cs`
(`String.includes`). -/
def containsSeq (cs pat : List Char) : Bool :=
  match cs with
  | [] => pat.isEmpty
  | _ :: t => pat.isPrefixOf cs || containsSeq t pat

/-- A match of the digit-group part of the pattern
`rgb\((\d+),\s*(\d+),\s*(\d+)\)` starting exactly at `cs`: digits, a comma,
optional spaces, digits, a comma, optional spaces, digits, a closing
parenthesis. -/
def rgbGroupsHere (cs : List Char) : Option (String × String × String) :=
  let d1 := cs.takeWhile Char.isDigit
  let r1 := cs.drop d1.length
  match d1, r1 with
  | [], _ => none
  | _, ',' :: r2 =>
    let sp1 := r2.takeWhile (fun c => c = ' ')
    let r3 := r2.drop sp1.length
    let d2 := r3.takeWhile Char.isDigit
    let r4 := r3.drop d2.length
    match d2, r4 with
    | [], _ => none
    | _, ',' :: r5 =>
      let sp2 := r5.takeWhile (fun c => c = ' ')
      let r6 := r5.drop sp2.length
      let d3 := r6.takeWhile Char.isDigit
      let r7 := r6.drop d3.length
      match d3, r7 with
      | [], _ => none
      | _, ')' :: _ => some (d1.asString, d2.asString, d3.asString)
      | _, _ => none
    | _, _ => none
  | _, _ => none

/-- The first match of the regular expression
`rgb\((\d+),\s*(\d+),\s*(\d+)\)` anywhere in `cs`, returning the three digit
groups. -/
def rgbSearch : List Char → Option (String × String × String)
  | [] => none
  | 'r' :: 'g' :: 'b' :: '(' :: rest =>
    match rgbGroupsHere rest with
    | some groups => some groups
    | none => rgbSearch ('g' :: 'b' :: '(' :: rest)
  | _ :: t => rgbSearch t

/-- The Mapbox GL paint properties `createStyleFromMapboxGL` reads; an
absent property is `none` (JS `undefined`). -/
structure MapboxPaint where
  fillColor : Option JsVal := none
  fillOpacity : Option ℚ := none
  fillOutlineColor : Option JsVal := none
  lineColor : Option JsVal := none
  lineOpacity : Option ℚ := none
  lineWidth : Option ℚ := none
  textColor : Option JsVal := none
  textOpacity : Option ℚ := none
  textSize : Option ℚ := none
  textHaloColor : Option JsVal := none
  textHaloWidth : Option ℚ := none

/-- The Mapbox GL layout properties `createStyleFromMapboxGL` reads. -/
structure MapboxLayout where
  visibility : Option String := none
  textField : Option JsVal := none
  textSize : Option ℚ := none

/-- A Mapbox GL style layer, restricted to the properties
`createStyleFromMapboxGL` reads. -/
structure MapboxStyleLayer where
  sourceLayer : Option String := none
  type : Option String := none
  paint : Option MapboxPaint := none
  layout : Option MapboxLayout := none
  minzoom : Option ℚ := none
  maxzoom : Option ℚ := none

/-- A Mapbox GL style document: the `layers` property (absent modelled as
the empty list, matching `styleJson.layers || []`). -/
structure MapboxStyle where
  layers : List MapboxStyleLayer := []

/-- An MVT feature's properties, read through `feature.get`. -/
structure Feature where
  props : List (String × JsVal)

/-- `feature.get(key)`: `none` models `undefined`. -/
def Feature.get (f : Feature) (key : String) : Option JsVal :=
  (f.props.find? (fun p => p.1 == key)).map (fun p => p.2)

/-- An OpenLayers `Fill`. -/
structure OlFill where
  color : String
  deriving DecidableEq

/-- An OpenLayers `Stroke`. -/
structure OlStroke where
  color : String
  width : ℚ
  deriving DecidableEq

/-- An OpenLayers `Text`, restricted to the options set by the embedded
code. -/
structure OlText where
  text : String
  fillColor : String
  stroke : Option OlStroke
  font : String
  deriving DecidableEq

/-- An OpenLayers `Style`, restricted to the options set by the embedded
code; `new Style()` is the record with every option absent. -/
structure OlStyle where
  fill : Option OlFill := none
  stroke : Option OlStroke := none
  text : Option OlText := none
  deriving DecidableEq

namespace BagLayerService

/-- `parseColor` (`bag-layer.ts` lines 84-142): converts a Mapbox GL color
value to an OpenLayers color string.  A falsy color yields opaque-at-the-
given-opacity black; an expression array is replaced by its first string
item that looks like a color, or a default gray; hex colors are split into
`parseInt(_, 16)` components; `rgb` colors get the opacity spliced in when
it is below 1 and the string is not already `rgba`; everything else is
passed through. -/
def parseColor (color : Option JsVal) (opacity : ℚ) : String :=
  if jsFalsy color then "rgba(0, 0, 0, " ++ qToString opacity ++ ")"
  else
    let color0 := color.getD JsVal.null
    let color1 :=
      match color0 with
      | .arr items =>
        match items.find? (fun item =>
            match item with
            | JsVal.str s => s.startsWith "#" || s.startsWith "rgb" || s.startsWith "hsl"
            | _ => false) with
        | some c => c
        | none => color0
      | _ => color0
    match color1 with
    | .arr _ => "rgba(128, 128, 128, " ++ qToString opacity ++ ")"
    | .str c =>
      if c.startsWith "#" then
        let hex := (removeFirstHash c.data).asString
        let r := parseIntHex (jsSubstring hex 0 2)
        let g := parseIntHex (jsSubstring hex 2 4)
        let b := parseIntHex (jsSubstring hex 4 6)
        "rgba(" ++ natOrNaN r ++ ", " ++ natOrNaN g ++ ", " ++ natOrNaN b ++ ", " ++
          qToString opacity ++ ")"
      else if c.startsWith "rgb" then
        if opacity < 1 && !containsSeq c.data "rgba".data then
          match rgbSearch c.data with
          | some (r, g, b) =>
            "rgba(" ++ r ++ ", " ++ g ++ ", " ++ b ++ ", " ++ qToString opacity ++ ")"
          | none => c
        else c
      else if c.startsWith "hsl" then c
      else c
    | _ => "rgba(0, 0, 0, " ++ qToString opacity ++ ")"

/-- The constant `156543.03392804097` of the resolution-to-zoom conversion
(`bag-layer.ts` line 189). -/
def BASE_RESOLUTION : ℚ := 156543.03392804097

/-- Decides `log2 x < m` exactly, for positive rational `x` and rational
`m`: `log2 x < m` iff `x < 2 ^ m` iff `x ^ m.den < 2 ^ m.num`, because
`t ↦ t ^ m.den` is strictly monotone on positives and
`(2 ^ (m.num / m.den)) ^ m.den = 2 ^ m.num`. -/
def log2Lt (x m : ℚ) : Bool := decide (x ^ m.den < 2 ^ m.num)

/-- Decides `log2 x > m` exactly, for positive rational `x`. -/
def log2Gt (x m : ℚ) : Bool := decide ((2 : ℚ) ^ m.num < x ^ m.den)

/-- The zoom-window skip of the style function (`bag-layer.ts` lines
184-192): `zoom = Math.log2(156543.03392804097 / resolution)` and the style
layer is skipped when a defined `minzoom` exceeds the zoom or a defined
`maxzoom` lies below it.  For `resolution = 0` the JS zoom is `Infinity`
(skipped exactly when `maxzoom` is defined); for a negative resolution it is
`NaN` (never skipped, both comparisons are false); for positive resolutions
the real-log comparisons are decided exactly by `log2Lt`/`log2Gt`. -/
def zoomExcluded (resolution : ℚ) (minzoom maxzoom : Option ℚ) : Bool :=
  if 0 < resolution then
    let x := BASE_RESOLUTION / resolution
    (match minzoom with | some mz => log2Lt x mz | none => false) ||
      (match maxzoom with | some mz => log2Gt x mz | none => false)
  else if resolution = 0 then
    maxzoom.isSome
  else
    false

/-- The first match of the text-field pattern (a brace, one or more
non-closing-brace characters, a closing brace), returning the group between
the braces — the field name. -/
def findBraceField : List Char → Option String
  | [] => none
  | c :: rest =>
    if c = '{' then
      let run := rest.takeWhile (fun d => d ≠ '}')
      if run.length > 0 && run.length < rest.length then some run.asString
      else findBraceField rest
    else findBraceField rest

/-- The per-style-layer body of the style function's loop (`bag-layer.ts`
lines 198-271), after the zoom and visibility skips: the `Style` produced
for a `fill`, `line` or text-yielding `symbol` layer, `none` when the layer
type is unsupported or a symbol layer resolves to no text. -/
def olStyleFor (feature : Feature) (layerStyle : MapboxStyleLayer) : Option OlStyle :=
  let paint := layerStyle.paint.getD {}
  let layout := layerStyle.layout.getD {}
  match layerStyle.type with
  | some "fill" =>
    let fillColor := parseColor paint.fillColor (paint.fillOpacity.getD 1)
    let strokeColor := parseColor paint.fillOutlineColor 1
    some { fill := some { color := fillColor },
           stroke :=
             if strokeColor ≠ "rgba(0, 0, 0, 1)" then
               some { color := strokeColor, width := 1 }
             else none }
  | some "line" =>
    let lineColor := parseColor paint.lineColor (paint.lineOpacity.getD 1)
    let lineWidth := paint.lineWidth.getD 1
    some { stroke := some { color := lineColor, width := lineWidth } }
  | some "symbol" =>
    match layout.textField with
    | some textField =>
      if textField.truthy then
        let textColor := parseColor (some (paint.textColor.getD (.str "#000000")))
          (paint.textOpacity.getD 1)
        let textSize := paint.textSize.getD (layout.textSize.getD 12)
        let textHaloColor := parseColor paint.textHaloColor 1
        let textHaloWidth := paint.textHaloWidth.getD 0
        let text : JsVal :=
          match textField with
          | .str s =>
            match findBraceField s.data with
            | some fieldName =>
              match feature.get fieldName with
              | some v => if v.falsy then .str "" else v
              | none => .str ""
            | none => .str s
          | _ => .str ""
        if text.truthy then
          let textStyle : OlText :=
            { text := text.jsToString,
              fillColor := textColor,
              stroke :=
                if 0 < textHaloWidth then
                  some { color := textHaloColor, width := textHaloWidth }
                else none,
              font := qToString textSize ++ "px sans-serif" }
          some { text := some textStyle }
        else none
      else none
    | none => none
  | _ => none

/-- One insertion into the `layerStyleMap` (`bag-layer.ts` lines 156-164):
append the style layer to its source-layer bucket, creating the bucket at
the end on first use (a JS `Map` preserves insertion order). -/
def addToLayerStyleMap (m : List (String × List MapboxStyleLayer)) (key : String)
    (layer : MapboxStyleLayer) : List (String × List MapboxStyleLayer) :=
  match m with
  | [] => [(key, [layer])]
  | (k, ls) :: rest =>
    if k = key then (k, ls ++ [layer]) :: rest
    else (k, ls) :: addToLayerStyleMap rest key layer

/-- The `layerStyleMap` built by `createStyleFromMapboxGL` (`bag-layer.ts`
lines 154-164): style layers grouped by truthy `source-layer`. -/
def buildLayerStyleMap (styleLayers : List MapboxStyleLayer) :
    List (String × List MapboxStyleLayer) :=
  styleLayers.foldl (fun m layer =>
    match layer.sourceLayer with
    | some sourceLayer =>
      if sourceLayer ≠ "" then addToLayerStyleMap m sourceLayer layer else m
    | none => m) []

/-- `layerStyleMap.get`. -/
def layerStyleMapGet (m : List (String × List MapboxStyleLayer)) (key : String) :
    Option (List MapboxStyleLayer) :=
  (m.find? (fun p => p.1 == key)).map (fun p => p.2)

/-- The accumulating loop of the style function (`bag-layer.ts` lines
178-272): per style layer, the zoom-window skip, then the
`layout.visibility === 'none'` skip, then the produced style (if any) is
pushed. -/
def styleLoop (feature : Feature) (resolution : ℚ) (styles : List OlStyle) :
    List MapboxStyleLayer → List OlStyle
  | [] => styles
  | layerStyle :: rest =>
    if zoomExcluded resolution layerStyle.minzoom layerStyle.maxzoom then
      styleLoop feature resolution styles rest
    else if (layerStyle.layout.getD {}).visibility = some "none" then
      styleLoop feature resolution styles rest
    else
      match olStyleFor feature layerStyle with
      | some olStyle => styleLoop feature resolution (styles ++ [olStyle]) rest
      | none => styleLoop feature resolution styles rest

/-- The style function's JavaScript return type: a single `Style` or an
array of styles. -/
inductive StyleResult where
  | single : OlStyle → StyleResult
  | list : List OlStyle → StyleResult
  deriving DecidableEq

/-- `createStyleFromMapboxGL` (`bag-layer.ts` lines 147-276): builds the
`layerStyleMap` once, then returns the style function. -/
def createStyleFromMapboxGL (styleJson : MapboxStyle) : Feature → ℚ → StyleResult :=
  let styleLayers := styleJson.layers
  let layerStyleMap := buildLayerStyleMap styleLayers
  fun feature resolution =>
    let sourceLayer := feature.get "layer"
    if jsFalsy sourceLayer then .single {}
    else
      let layerStyles :=
        (match sourceLayer with
         | some (.str s) => layerStyleMapGet layerStyleMap s
         | _ => none).getD []
      let styles := styleLoop feature resolution [] layerStyles
      if styles.length > 0 then .list styles else .single {}

/-- The style layers that survive the zoom-window and visibility skips. -/
def keptStyleLayers (resolution : ℚ) (layerStyles : List MapboxStyleLayer) :
    List MapboxStyleLayer :=
  layerStyles.filter (fun layerStyle =>
    !zoomExcluded resolution layerStyle.minzoom layerStyle.maxzoom &&
      !(decide ((layerStyle.layout.getD {}).visibility = some "none")))

end BagLayerService

namespace BrtLayerService

/-- The outcome of one `createLayer` run's external effects: the results of
the two HTTP fetches (the private `getTileMatrixSet` and `getStyle` helpers
catch fetch errors and return `null`, modelled as `none`), whether the
`EPSG:28992` projection is registered, and whether the external
`ol-mapbox-style` `applyStyle` call succeeds. -/
structure BrtEnv where
  tileMatrixSetFetch : Option TileMatrixSet
  styleFetch : Option MapboxStyle
  projectionRegistered : Bool
  applyStyleOk : Bool

/-- The fields of the BRT `VectorTileLayer` the claims observe: the
tile-grid resolutions, the source URL template and the applied style. -/
structure BrtVectorTileLayer where
  resolutions : List ℚ
  urlTemplate : String
  appliedStyle : Option MapboxStyle := none

/-- The BRT `buildVectorTileLayer` (`brt-layer.ts` lines 81-136): throws
when the `EPSG:28992` projection is not registered, otherwise constructs
the layer over a tile grid with the sorted resolutions. -/
def buildVectorTileLayer (projectionRegistered : Bool) (tileMatrixSet : TileMatrixSet) :
    Except String BrtVectorTileLayer :=
  if projectionRegistered then
    .ok { resolutions := resolutions tileMatrixSet,
          urlTemplate := pdokBaseUrl ++ "/tiles/NetherlandsRDNewQuad/{z}/{y}/{x}?f=mvt" }
  else .error "EPSG:28992 projection not found"

/-- `applyStyle` (`brt-layer.ts` lines 141-160): delegates to the external
`ol-mapbox-style` `applyStyle`; on failure it logs the error and rethrows
it. -/
def applyStyle (applyStyleOk : Bool) (layer : BrtVectorTileLayer)
    (styleJson : MapboxStyle) : Except String BrtVectorTileLayer :=
  if applyStyleOk then .ok { layer with appliedStyle := some styleJson }
  else .error "Error applying BRT style"

/-- `createLayer` (`brt-layer.ts` lines 23-40): throws when the tile matrix
set fetch returned `null`, builds the layer (which throws on a missing
projection), then fetches the style and applies it only when that fetch
succeeded. -/
def createLayer (env : BrtEnv) : Except String BrtVectorTileLayer :=
  match env.tileMatrixSetFetch with
  | none => .error "Failed to fetch TileMatrixSet from PDOK"
  | some tileMatrixSet =>
    match buildVectorTileLayer env.projectionRegistered tileMatrixSet with
    | .error e => .error e
    | .ok layer =>
      match env.styleFetch with
      | some styleJson => applyStyle env.applyStyleOk layer styleJson
      | none => .ok layer

end BrtLayerService

namespace App

/-- `storageKey` (`app.ts` line 22). -/
def storageKey : String := "pdok-map-layout-sizes"

/-- The validation `getSavedSizes` applies to a parsed value:
`Array.isArray(sizes) && sizes.length === 2 && typeof sizes[0] === 'number'`
— only the FIRST entry's type is inspected. -/
def savedSizesValid : JsVal → Bool
  | .arr xs => xs.length == 2 && (xs.getD 0 .null).isNumber
  | _ => false

/-- `getSavedSizes` (`app.ts` lines 45-60) as a function of the stored
localStorage value (`none` models `null`) and of the `JSON.parse` outcome
(`none` models a thrown parse error): the parsed value is returned when the
validation accepts it, and the default `[20, 80]` otherwise — also for an
absent or empty stored string and for unparsable text. -/
def getSavedSizes (savedSizes : Option String) (jsonParse : String → Option JsVal) : JsVal :=
  match savedSizes with
  | some s =>
    if s ≠ "" then
      match jsonParse s with
      | some sizes => if savedSizesValid sizes then sizes else .arr [.num 20, .num 80]
      | none => .arr [.num 20, .num 80]
    else .arr [.num 20, .num 80]
  | none => .arr [.num 20, .num 80]

end App

/-- A Mapbox fill style layer on source layer "a", with no paint, layout or
zoom window. -/
def cexFillLayer : MapboxStyleLayer := { sourceLayer := some "a", type := some "fill" }

/-- A Mapbox circle style layer (a type the conversion does not support) on
the same source layer. -/
def cexCircleLayer : MapboxStyleLayer := { sourceLayer := some "a", type := some "circle" }

/-- A Mapbox style whose two layers both target source layer "a". -/
def cexStyleJson : MapboxStyle := { layers := [cexFillLayer, cexCircleLayer] }

/-- An MVT feature belonging to source layer "a". -/
def cexFeature : Feature := { props := [("layer", JsVal.str "a")] }

/-- `baseMapVisibilityInvariant` only quantifies over a list, so it is
decidable; this instance lets concrete instances be checked by `decide`. -/
instance (st : LayerManager.BaseMapState) :
    Decidable (LayerManager.baseMapVisibilityInvariant st) :=
  inferInstanceAs (Decidable (∀ bm ∈ st.availableBaseMaps,
    bm.layer.visible = (bm.id == st.activeBaseMapId)))

/-- A hidden OpenLayers layer with an unbounded resolution window, used to
instantiate theorems on concrete inputs. -/
def sampleOlHidden : OlLayer := { maxResolution := ⊤, minResolution := 0, visible := false }

/-- A concrete overlay-layer list: one BAG-like entry whose resolution window
is [1, 3]. -/
def sampleAppLayers : List AppLayer :=
  [{ id := "bag", name := "BAG", visible := true,
     layer := { maxResolution := ((3 : ℚ) : WithTop ℚ), minResolution := 1, visible := false } }]

/-- A concrete base-map state satisfying the base-map visibility invariant. -/
def sampleBaseState : LayerManager.BaseMapState :=
  { availableBaseMaps :=
      [{ id := "osm", name := "OpenStreetMap",
         layer := { maxResolution := ⊤, minResolution := 0, visible := true } },
       { id := "pdok-brt", name := "PDOK BRT",
         layer := { maxResolution := ⊤, minResolution := 0, visible := false } }],
    activeBaseMapId := "osm" }

/-- After the conditional `setVisible` call of `layersWithAvailability`, the
OpenLayers visibility equals the computed final visibility. -/
theorem visible_after_cond_set (ol : OlLayer) (b : Bool) :
    (if ol.visible != b then { ol with visible := b } else ol).visible = b := by
  by_cases h : ol.visible = b <;> simp [h]

/-- `updateBaseMapVisibility` establishes the base-map visibility invariant
from any state. -/
theorem updateBaseMapVisibility_invariant (st : LayerManager.BaseMapState) :
    LayerManager.baseMapVisibilityInvariant (LayerManager.updateBaseMapVisibility st) := by
  intro bm hbm
  simp only [LayerManager.updateBaseMapVisibility, List.mem_map] at hbm
  obtain ⟨a, -, rfl⟩ := hbm
  rfl

/-- `getD` with an in-range index is `getElem`. -/
theorem getD_eq_getElem_of_lt (l : List ℚ) (i : Nat) (h : i < l.length) :
    l.getD i 0 = l[i] := by
  rw [List.getD_eq_getElem?_getD, List.getElem?_eq_getElem h]
  rfl

/-- The stable descending sort of the tile matrices is strictly descending in
scale denominator once the scale denominators are pairwise distinct. -/
theorem sortedMatrices_pairwise_gt (tms : TileMatrixSet)
    (hd : tms.tileMatrices.Pairwise (fun a b => a.scaleDenominator ≠ b.scaleDenominator)) :
    (BagLayerService.sortedMatrices tms).Pairwise
      (fun a b => b.scaleDenominator < a.scaleDenominator) := by
  have hs : (BagLayerService.sortedMatrices tms).Pairwise
      (fun a b => decide (b.scaleDenominator ≤ a.scaleDenominator) = true) :=
    List.sorted_mergeSort
      (fun a b c hab hbc => by
        simp only [decide_eq_true_eq] at *
        exact le_trans hbc hab)
      (fun a b => by
        simp only [Bool.or_eq_true, decide_eq_true_eq]
        exact le_total _ _)
      tms.tileMatrices
  have hperm := List.mergeSort_perm tms.tileMatrices
    (fun a b => decide (b.scaleDenominator ≤ a.scaleDenominator))
  have hd2 : (BagLayerService.sortedMatrices tms).Pairwise
      (fun a b => a.scaleDenominator ≠ b.scaleDenominator) :=
    (List.Perm.pairwise_iff (fun h => Ne.symm h) hperm).2 hd
  exact (hs.and hd2).imp
    (fun h => lt_of_le_of_ne (by simpa using h.1) (Ne.symm h.2))

/-- With pairwise-distinct scale denominators, the BAG resolutions list is
strictly decreasing. -/
theorem resolutions_pairwise_gt (tms : TileMatrixSet)
    (hd : tms.tileMatrices.Pairwise (fun a b => a.scaleDenominator ≠ b.scaleDenominator)) :
    (BagLayerService.resolutions tms).Pairwise (fun a b => b < a) := by
  rw [BagLayerService.resolutions, List.pairwise_map]
  exact (sortedMatrices_pairwise_gt tms hd).imp
    (fun h => by exact mul_lt_mul_of_pos_right h (by norm_num))

/-- The BAG resolutions list has one entry per tile matrix. -/
theorem resolutions_length (tms : TileMatrixSet) :
    (BagLayerService.resolutions tms).length = tms.tileMatrices.length := by
  simp [BagLayerService.resolutions, BagLayerService.sortedMatrices]

/-- The BAG and BRT services compute their resolutions identically. -/
theorem bag_resolutions_eq_brt (tms : TileMatrixSet) :
    BagLayerService.resolutions tms = BrtLayerService.resolutions tms := rfl

/-- C1: the BAG tile URL function restricts requests to one zoom level: for a
non-null coordinate `[z, x, y]` the URL is built from x and y with the zoom
segment fixed at 12, independent of z, and a null coordinate yields
`undefined`. -/
theorem C1_tileUrlFunction_forces_z12 :
    (∀ z x y : Int,
      BagLayerService.tileUrlFunction (some ⟨z, x, y⟩) =
        some ("https://api.pdok.nl/lv/bag/ogc/v1/tiles/NetherlandsRDNewQuad/12/" ++
          toString y ++ "/" ++ toString x ++ "?f=mvt")) ∧
    BagLayerService.tileUrlFunction none = none := by
  exact ⟨fun z x y => rfl, rfl⟩

/-- C7: `toggleLayerVisibility` sets `visible` to the requested value exactly
on the entries with the given id, leaves the other fields, the length and the
order unchanged, and leaves the whole list unchanged when no entry has the
given id. -/
theorem C7_toggleLayerVisibility_frame (layers : List AppLayer) (id : String) (v : Bool) :
    (LayerManager.toggleLayerVisibility layers id v).length = layers.length ∧
    (∀ i (h1 : i < layers.length)
        (h2 : i < (LayerManager.toggleLayerVisibility layers id v).length),
      (LayerManager.toggleLayerVisibility layers id v)[i].id = layers[i].id ∧
      (LayerManager.toggleLayerVisibility layers id v)[i].name = layers[i].name ∧
      (LayerManager.toggleLayerVisibility layers id v)[i].layer = layers[i].layer ∧
      (LayerManager.toggleLayerVisibility layers id v)[i].visible =
        (if layers[i].id = id then v else layers[i].visible)) ∧
    ((∀ l ∈ layers, l.id ≠ id) → LayerManager.toggleLayerVisibility layers id v = layers) := by
  refine ⟨by simp [LayerManager.toggleLayerVisibility], ?_, ?_⟩
  · intro i _h1 h2
    simp only [LayerManager.toggleLayerVisibility, List.getElem_map]
    by_cases hid : layers[i].id = id <;> simp [hid]
  · intro hnone
    simp only [LayerManager.toggleLayerVisibility]
    conv_rhs => rw [← List.map_id layers]
    exact List.map_congr_left (fun l hl => by simp [hnone l hl])

/-- C7 witness: toggling an id that no entry of the sample overlay list
carries leaves the list unchanged. -/
theorem C7_toggleLayerVisibility_frame_witness :
    sampleAppLayers.all (fun l => l.id != "nope") = true ∧
    LayerManager.toggleLayerVisibility sampleAppLayers "nope" true = sampleAppLayers :=
  ⟨by decide,
    (C7_toggleLayerVisibility_frame sampleAppLayers "nope" true).2.2 (by
      intro l hl
      simp only [sampleAppLayers, List.mem_singleton] at hl
      subst hl
      decide)⟩

/-- C3: `layersWithAvailability` reports every overlay unavailable when the
current resolution is null; for resolution r it reports an overlay available
iff r lies in the closed resolution window of its OpenLayers layer, and the
OpenLayers visibility it leaves behind equals
`isAvailable && desired visible`. -/
theorem C3_layersWithAvailability (layers : List AppLayer) :
    (∀ i (_h1 : i < layers.length)
        (h2 : i < (LayerManager.layersWithAvailability layers none).length),
      (LayerManager.layersWithAvailability layers none)[i].isAvailable = false) ∧
    (∀ (r : ℚ) i (h1 : i < layers.length)
        (h2 : i < (LayerManager.layersWithAvailability layers (some r)).length),
      ((LayerManager.layersWithAvailability layers (some r))[i].isAvailable = true ↔
        (layers[i].layer.minResolution ≤ r ∧
          (r : WithTop ℚ) ≤ layers[i].layer.maxResolution)) ∧
      (LayerManager.layersWithAvailability layers (some r))[i].layer.visible =
        ((LayerManager.layersWithAvailability layers (some r))[i].isAvailable &&
          layers[i].visible)) := by
  constructor
  · intro i _h1 h2
    simp [LayerManager.layersWithAvailability]
  · intro r i h1 h2
    simp only [LayerManager.layersWithAvailability, List.getElem_map]
    constructor
    · simp only [Bool.and_eq_true, decide_eq_true_eq]
      exact and_comm
    · exact visible_after_cond_set _ _

/-- C3 witness: on the sample overlay list at resolution 2 (inside the
window [1, 3]) the theorem reports the layer available. -/
theorem C3_layersWithAvailability_witness :
    sampleAppLayers[0].layer.minResolution ≤ (2 : ℚ) ∧
    ((2 : ℚ) : WithTop ℚ) ≤ sampleAppLayers[0].layer.maxResolution ∧
    ((LayerManager.layersWithAvailability sampleAppLayers (some 2)).get
      ⟨0, by decide⟩).isAvailable = true := by
  refine ⟨by decide, by decide, ?_⟩
  rw [List.get_eq_getElem]
  exact ((C3_layersWithAvailability sampleAppLayers).2 2 0 (by decide) (by decide)).1.mpr
    ⟨by decide, by decide⟩

/-- C8: after `initializeBaseMapsAsync` (in any of its success/failure
scenarios for the BRT and Luchtfoto layers), after `setActiveBaseMap` and
after `addBaseMap`, every available base map's OpenLayers visibility equals
whether its id is the active base-map id; under pairwise-distinct ids at most
one base map is visible. -/
theorem C8_baseMap_visibility_invariant (st : LayerManager.BaseMapState)
    (osmLayer brtLayer luchtfotoLayer layer : OlLayer) (brtOk luchtfotoOk : Bool)
    (id name : String) :
    LayerManager.baseMapVisibilityInvariant
      (LayerManager.initializeBaseMapsAsync st osmLayer brtLayer luchtfotoLayer
        brtOk luchtfotoOk) ∧
    LayerManager.baseMapVisibilityInvariant (LayerManager.setActiveBaseMap st id) ∧
    LayerManager.baseMapVisibilityInvariant (LayerManager.addBaseMap st id name layer) ∧
    (∀ st2 : LayerManager.BaseMapState, LayerManager.baseMapVisibilityInvariant st2 →
      st2.availableBaseMaps.Pairwise (fun a b => a.id ≠ b.id) →
      ∀ i j (hi : i < st2.availableBaseMaps.length) (hj : j < st2.availableBaseMaps.length),
        st2.availableBaseMaps[i].layer.visible = true →
        st2.availableBaseMaps[j].layer.visible = true → i = j) := by
  refine ⟨updateBaseMapVisibility_invariant _, updateBaseMapVisibility_invariant _,
    updateBaseMapVisibility_invariant _, ?_⟩
  intro st2 hinv hpw i j hi hj hvi hvj
  have hid_i : st2.availableBaseMaps[i].id = st2.activeBaseMapId := by
    have h := hinv _ (List.getElem_mem hi)
    rw [hvi] at h
    exact eq_of_beq h.symm
  have hid_j : st2.availableBaseMaps[j].id = st2.activeBaseMapId := by
    have h := hinv _ (List.getElem_mem hj)
    rw [hvj] at h
    exact eq_of_beq h.symm
  by_contra hne
  rw [List.pairwise_iff_getElem] at hpw
  rcases Nat.lt_or_ge i j with h | h
  · exact hpw i j hi hj h (hid_i.trans hid_j.symm)
  · exact hpw j i hj hi (lt_of_le_of_ne h (Ne.symm hne)) (hid_j.trans hid_i.symm)

/-- C8 witness: the invariant holds on a concrete initialization run and the
at-most-one-visible conclusion holds on the concrete sample state. -/
theorem C8_baseMap_visibility_invariant_witness :
    LayerManager.baseMapVisibilityInvariant
      (LayerManager.initializeBaseMapsAsync ⟨[], "pdok-brt"⟩ sampleOlHidden sampleOlHidden
        sampleOlHidden true true) ∧
    LayerManager.baseMapVisibilityInvariant sampleBaseState ∧
    sampleBaseState.availableBaseMaps.Pairwise (fun a b => a.id ≠ b.id) ∧
    (0 : ℕ) = 0 := by
  refine ⟨(C8_baseMap_visibility_invariant ⟨[], "pdok-brt"⟩ sampleOlHidden sampleOlHidden
      sampleOlHidden sampleOlHidden true true "osm" "OpenStreetMap").1,
    by decide, by decide, ?_⟩
  exact (C8_baseMap_visibility_invariant ⟨[], "pdok-brt"⟩ sampleOlHidden sampleOlHidden
      sampleOlHidden sampleOlHidden true true "osm" "OpenStreetMap").2.2.2 sampleBaseState
    (by decide) (by decide) 0 0 (by decide) (by decide) (by decide) (by decide)

/-- C9: `removeBaseMap` never changes the active base-map id; removing the
active base map leaves the whole state unchanged; removing a non-active id
keeps a subsequence of the entries (order preserved) and removes exactly the
entries carrying that id. -/
theorem C9_removeBaseMap (st : LayerManager.BaseMapState) (id : String) :
    (LayerManager.removeBaseMap st id).activeBaseMapId = st.activeBaseMapId ∧
    (st.activeBaseMapId = id → LayerManager.removeBaseMap st id = st) ∧
    (st.activeBaseMapId ≠ id →
      (LayerManager.removeBaseMap st id).availableBaseMaps.Sublist st.availableBaseMaps ∧
      (∀ bm : BaseMap,
        (LayerManager.removeBaseMap st id).availableBaseMaps.count bm =
          if bm.id = id then 0 else st.availableBaseMaps.count bm)) := by
  by_cases h : st.activeBaseMapId = id
  · refine ⟨?_, fun _ => ?_, fun hne => absurd h hne⟩ <;> simp [LayerManager.removeBaseMap, h]
  · have hrw : LayerManager.removeBaseMap st id =
        { st with availableBaseMaps := st.availableBaseMaps.filter (fun bm => bm.id != id) } := by
      simp [LayerManager.removeBaseMap, h]
    refine ⟨by rw [hrw], fun hh => absurd hh h, fun _ => ?_⟩
    rw [hrw]
    refine ⟨List.filter_sublist _, fun bm => ?_⟩
    by_cases hbm : bm.id = id
    · simp [hbm, List.count_eq_zero, List.mem_filter]
    · rw [List.count_filter (by simp [hbm])]
      simp [hbm]

/-- C9 witness: removing the non-active "pdok-brt" entry from the sample
state keeps a subsequence and leaves no "pdok-brt" entry. -/
theorem C9_removeBaseMap_witness :
    sampleBaseState.activeBaseMapId ≠ "pdok-brt" ∧
    (LayerManager.removeBaseMap sampleBaseState "pdok-brt").availableBaseMaps.Sublist
      sampleBaseState.availableBaseMaps := by
  refine ⟨by decide, ?_⟩
  exact ((C9_removeBaseMap sampleBaseState "pdok-brt").2.2 (by decide)).1

/-- C5: both services derive the resolutions by stably sorting the tile
matrices into descending scale-denominator order and multiplying by 0.00028,
so with pairwise-distinct scale denominators the resolutions list is
strictly decreasing and has one entry per tile matrix. -/
theorem C5_resolutions_strictly_decreasing (tms : TileMatrixSet)
    (hd : tms.tileMatrices.Pairwise (fun a b => a.scaleDenominator ≠ b.scaleDenominator)) :
    BagLayerService.resolutions tms = BrtLayerService.resolutions tms ∧
    (BrtLayerService.resolutions tms).Pairwise (fun a b => b < a) ∧
    (BrtLayerService.resolutions tms).length = tms.tileMatrices.length ∧
    (BagLayerService.resolutions tms).Pairwise (fun a b => b < a) ∧
    (BagLayerService.resolutions tms).length = tms.tileMatrices.length := by
  have heq := bag_resolutions_eq_brt tms
  have hpw := resolutions_pairwise_gt tms hd
  have hlen := resolutions_length tms
  exact ⟨heq, heq ▸ hpw, heq ▸ hlen, hpw, hlen⟩

/-- C5 witness: on the sample tile matrix set (two distinct scale
denominators, ascending input order) the theorem applies. -/
theorem C5_resolutions_strictly_decreasing_witness :
    sampleTileMatrixSet.tileMatrices.Pairwise
      (fun a b => a.scaleDenominator ≠ b.scaleDenominator) ∧
    (BrtLayerService.resolutions sampleTileMatrixSet).Pairwise (fun a b => b < a) ∧
    (BrtLayerService.resolutions sampleTileMatrixSet).length =
      sampleTileMatrixSet.tileMatrices.length :=
  ⟨by decide,
    (C5_resolutions_strictly_decreasing sampleTileMatrixSet (by decide)).2.1,
    (C5_resolutions_strictly_decreasing sampleTileMatrixSet (by decide)).2.2.1⟩

/-- C2 counterexample: on a 14-level tile matrix set the closed interval
`[minResolution, maxResolution]` of the constructed BAG layer also contains
the resolution at index 11 (zoom level 11) — not only the zoom-12
resolution, contrary to the claim's "and of no other zoom level". -/
theorem C2_counterexample_closed_interval :
    13 < (BagLayerService.resolutions cexTileMatrixSet).length ∧
    (BagLayerService.buildVectorTileLayer cexTileMatrixSet).minResolution ≤
      (BagLayerService.resolutions cexTileMatrixSet).getD 11 0 ∧
    (((BagLayerService.resolutions cexTileMatrixSet).getD 11 0 : ℚ) : WithTop ℚ) ≤
      (BagLayerService.buildVectorTileLayer cexTileMatrixSet).maxResolution ∧
    (11 : ℕ) ≠ 12 := by
  have hsorted : BagLayerService.sortedMatrices cexTileMatrixSet =
      cexTileMatrixSet.tileMatrices := List.mergeSort_of_sorted (by decide)
  have hres : BagLayerService.resolutions cexTileMatrixSet =
      cexTileMatrixSet.tileMatrices.map (fun matrix => matrix.scaleDenominator * 0.00028) := by
    rw [BagLayerService.resolutions, hsorted]
  refine ⟨?_, ?_, ?_, by decide⟩ <;>
    simp only [BagLayerService.buildVectorTileLayer, BagLayerService.zoomRestriction,
      BagLayerService.Z11_INDEX, BagLayerService.Z13_INDEX, hres] <;>
    norm_num [cexTileMatrixSet]

/-- C2 (amended): with pairwise-distinct scale denominators, when more than
13 resolutions exist the constructed BAG layer has
`maxResolution = resolutions[11]` and `minResolution = resolutions[13]`, and
the OPEN interval `(minResolution, maxResolution)` contains the zoom-12
resolution and the resolution of no other zoom level (the closed interval
additionally contains its endpoints, the zoom-11 and zoom-13 resolutions);
with 13 or fewer resolutions, `maxResolution` is `Infinity` and
`minResolution` is 0. -/
theorem C2_z12_zoom_window (tms : TileMatrixSet)
    (hd : tms.tileMatrices.Pairwise (fun a b => a.scaleDenominator ≠ b.scaleDenominator)) :
    (13 < (BagLayerService.resolutions tms).length →
      (BagLayerService.buildVectorTileLayer tms).maxResolution =
        (((BagLayerService.resolutions tms).getD 11 0 : ℚ) : WithTop ℚ) ∧
      (BagLayerService.buildVectorTileLayer tms).minResolution =
        (BagLayerService.resolutions tms).getD 13 0 ∧
      (∀ i (hi : i < (BagLayerService.resolutions tms).length),
        ((BagLayerService.buildVectorTileLayer tms).minResolution <
            (BagLayerService.resolutions tms)[i] ∧
          (((BagLayerService.resolutions tms)[i] : ℚ) : WithTop ℚ) <
            (BagLayerService.buildVectorTileLayer tms).maxResolution) ↔ i = 12)) ∧
    ((BagLayerService.resolutions tms).length ≤ 13 →
      (BagLayerService.buildVectorTileLayer tms).maxResolution = ⊤ ∧
      (BagLayerService.buildVectorTileLayer tms).minResolution = 0) := by
  constructor
  · intro hlen
    have h11 : 11 < (BagLayerService.resolutions tms).length := by omega
    have h13 : 13 < (BagLayerService.resolutions tms).length := hlen
    have hmax : (BagLayerService.buildVectorTileLayer tms).maxResolution =
        (((BagLayerService.resolutions tms).getD 11 0 : ℚ) : WithTop ℚ) := by
      simp only [BagLayerService.buildVectorTileLayer, BagLayerService.zoomRestriction,
        BagLayerService.Z11_INDEX, BagLayerService.Z13_INDEX]
      rw [if_pos hlen]
    have hmin : (BagLayerService.buildVectorTileLayer tms).minResolution =
        (BagLayerService.resolutions tms).getD 13 0 := by
      simp only [BagLayerService.buildVectorTileLayer, BagLayerService.zoomRestriction,
        BagLayerService.Z11_INDEX, BagLayerService.Z13_INDEX]
      rw [if_pos hlen]
    refine ⟨hmax, hmin, ?_⟩
    intro i hi
    rw [hmax, hmin, getD_eq_getElem_of_lt _ _ h11, getD_eq_getElem_of_lt _ _ h13,
      WithTop.coe_lt_coe]
    have hpw := resolutions_pairwise_gt tms hd
    rw [List.pairwise_iff_getElem] at hpw
    constructor
    · rintro ⟨hlo, hhi⟩
      by_contra hne
      rcases Nat.lt_or_ge i 12 with hc | hc
      · rcases Nat.lt_or_ge i 11 with hc2 | hc2
        · exact absurd hhi (lt_asymm (hpw i 11 hi h11 hc2))
        · have hi11 : i = 11 := by omega
          subst hi11
          exact lt_irrefl _ hhi
      · rcases Nat.lt_or_ge 13 i with hc2 | hc2
        · exact absurd hlo (lt_asymm (hpw 13 i h13 hi hc2))
        · have hi13 : i = 13 := by omega
          subst hi13
          exact lt_irrefl _ hlo
    · rintro rfl
      exact ⟨hpw 12 13 (by omega) h13 (by omega), hpw 11 12 h11 (by omega) (by omega)⟩
  · intro hlen
    have hnot : ¬ ((BagLayerService.resolutions tms).length > BagLayerService.Z13_INDEX) := by
      simp only [BagLayerService.Z13_INDEX]
      omega
    constructor <;>
      simp only [BagLayerService.buildVectorTileLayer, BagLayerService.zoomRestriction,
        if_neg hnot]

/-- C2 witness: the amended theorem applies to the concrete 14-level tile
matrix set and yields its `maxResolution` equation. -/
theorem C2_z12_zoom_window_witness :
    cexTileMatrixSet.tileMatrices.Pairwise
      (fun a b => a.scaleDenominator ≠ b.scaleDenominator) ∧
    (BagLayerService.buildVectorTileLayer cexTileMatrixSet).maxResolution =
      (((BagLayerService.resolutions cexTileMatrixSet).getD 11 0 : ℚ) : WithTop ℚ) := by
  refine ⟨by decide, ?_⟩
  exact ((C2_z12_zoom_window cexTileMatrixSet (by decide)).1
    (by rw [resolutions_length]; decide)).1

/-- The style-function loop is the `filterMap` of the per-layer style
construction over the style layers kept by the zoom and visibility skips,
appended to the accumulator. -/
theorem styleLoop_eq_filterMap (feature : Feature) (resolution : ℚ)
    (styles : List OlStyle) (layerStyles : List MapboxStyleLayer) :
    BagLayerService.styleLoop feature resolution styles layerStyles =
      styles ++ (BagLayerService.keptStyleLayers resolution layerStyles).filterMap
        (BagLayerService.olStyleFor feature) := by
  induction layerStyles generalizing styles with
  | nil => simp [BagLayerService.styleLoop, BagLayerService.keptStyleLayers]
  | cons layerStyle rest ih =>
    by_cases hz :
        BagLayerService.zoomExcluded resolution layerStyle.minzoom layerStyle.maxzoom = true
    · simp [BagLayerService.styleLoop, BagLayerService.keptStyleLayers, hz, ih,
        List.filter_cons]
    · by_cases hv : (layerStyle.layout.getD {}).visibility = some "none"
      · simp [BagLayerService.styleLoop, BagLayerService.keptStyleLayers, hz, hv, ih,
          List.filter_cons]
      · cases ho : BagLayerService.olStyleFor feature layerStyle with
        | some olStyle =>
          simp [BagLayerService.styleLoop, BagLayerService.keptStyleLayers, hz, hv, ho, ih,
            List.filter_cons, List.filterMap_cons]
        | none =>
          simp [BagLayerService.styleLoop, BagLayerService.keptStyleLayers, hz, hv, ho, ih,
            List.filter_cons, List.filterMap_cons]

/-- C4 counterexample: both style layers of `cexStyleJson` match the
feature's source layer "a" and neither is skipped (2 kept layers), yet the
style function returns a single-element array — the unsupported `circle`
layer yields no style, contrary to "one OpenLayers style per Mapbox GL style
layer whose source-layer equals the feature's layer, skipping [only]
visibility-none and zoom-excluded layers". -/
theorem C4_counterexample_unsupported_type :
    (BagLayerService.keptStyleLayers 1
      ((BagLayerService.layerStyleMapGet
        (BagLayerService.buildLayerStyleMap cexStyleJson.layers) "a").getD [])).length = 2 ∧
    BagLayerService.createStyleFromMapboxGL cexStyleJson cexFeature 1 =
      .list [{ fill := some { color := "rgba(0, 0, 0, 1)" } }] ∧
    (1 : ℕ) ≠ 2 := by
  refine ⟨by decide, by decide, by decide⟩

/-- C4 (amended): the style function returns a single empty `Style` for a
feature with a falsy `layer` property; otherwise it returns the array of
styles obtained from the style layers grouped under the feature's layer, the
zoom-window- and visibility-skipped ones removed, each remaining layer
contributing its converted style IF it yields one (`fill` and `line` layers
always yield one; layers of any other type than `fill`, `line`, `symbol`
never do; `symbol` layers yield one exactly when their text resolves to a
truthy value), with a single empty `Style` returned when no style layer
yields a style. -/
theorem C4_createStyleFromMapboxGL (styleJson : MapboxStyle) (feature : Feature)
    (resolution : ℚ) :
    (jsFalsy (feature.get "layer") = true →
      BagLayerService.createStyleFromMapboxGL styleJson feature resolution = .single {}) ∧
    (∀ s, feature.get "layer" = some (.str s) → s ≠ "" →
      BagLayerService.createStyleFromMapboxGL styleJson feature resolution =
        (let styles := (BagLayerService.keptStyleLayers resolution
            ((BagLayerService.layerStyleMapGet
              (BagLayerService.buildLayerStyleMap styleJson.layers) s).getD [])).filterMap
            (BagLayerService.olStyleFor feature)
         if 0 < styles.length then .list styles else .single {})) ∧
    (∀ layerStyle : MapboxStyleLayer,
      layerStyle.type = some "fill" ∨ layerStyle.type = some "line" →
      (BagLayerService.olStyleFor feature layerStyle).isSome = true) ∧
    (∀ layerStyle : MapboxStyleLayer,
      layerStyle.type ≠ some "fill" → layerStyle.type ≠ some "line" →
      layerStyle.type ≠ some "symbol" →
      BagLayerService.olStyleFor feature layerStyle = none) := by
  refine ⟨?_, ?_, ?_, ?_⟩
  · intro h
    simp [BagLayerService.createStyleFromMapboxGL, h]
  · intro s hs hne
    simp only [BagLayerService.createStyleFromMapboxGL, hs, jsFalsy, JsVal.falsy]
    rw [if_neg (by simpa using hne)]
    rw [styleLoop_eq_filterMap]
    simp
  · intro layerStyle h
    rcases h with h | h <;> simp [BagLayerService.olStyleFor, h]
  · intro layerStyle h1 h2 h3
    unfold BagLayerService.olStyleFor
    rcases hty : layerStyle.type with _ | t
    · simp [hty]
    · simp only [hty]
      split <;> simp_all

/-- C4 witness: the amended theorem applied to the concrete style and
feature: a feature with no layer property gets the single empty style, and
the fill layer yields a style. -/
theorem C4_createStyleFromMapboxGL_witness :
    jsFalsy ((⟨[]⟩ : Feature).get "layer") = true ∧
    BagLayerService.createStyleFromMapboxGL cexStyleJson ⟨[]⟩ 1 = .single {} ∧
    (cexFillLayer.type = some "fill" ∨ cexFillLayer.type = some "line") ∧
    (BagLayerService.olStyleFor cexFeature cexFillLayer).isSome = true :=
  ⟨rfl, (C4_createStyleFromMapboxGL cexStyleJson ⟨[]⟩ 1).1 rfl, Or.inl rfl,
    (C4_createStyleFromMapboxGL cexStyleJson cexFeature 1).2.2.1 cexFillLayer (Or.inl rfl)⟩

/-- C6 counterexample: a run where the tile matrix set fetch succeeds and
the projection is registered, but the successfully fetched style fails to
apply: `createLayer` rejects, contrary to "throws exactly when fetching the
tile matrix set fails (or the projection is not registered)". -/
theorem C6_counterexample_applyStyle_failure :
    BrtLayerService.createLayer
      { tileMatrixSetFetch := some sampleTileMatrixSet, styleFetch := some {},
        projectionRegistered := true, applyStyleOk := false } =
      .error "Error applying BRT style" ∧
    (some sampleTileMatrixSet : Option TileMatrixSet).isSome = true := ⟨rfl, rfl⟩

/-- C6 (amended): `createLayer` fails exactly when the tile matrix set fetch
failed, the projection is unregistered, or a successfully FETCHED style
fails to apply; a failed style FETCH does not fail `createLayer`, which then
resolves to the built layer with no style applied. -/
theorem C6_createLayer_error_conditions (env : BrtLayerService.BrtEnv) :
    ((BrtLayerService.createLayer env).isOk = false ↔
      env.tileMatrixSetFetch = none ∨ env.projectionRegistered = false ∨
        (env.styleFetch.isSome = true ∧ env.applyStyleOk = false)) ∧
    (∀ tms, env.tileMatrixSetFetch = some tms → env.styleFetch = none →
      env.projectionRegistered = true →
      BrtLayerService.createLayer env =
        .ok { resolutions := BrtLayerService.resolutions tms,
              urlTemplate := BrtLayerService.pdokBaseUrl ++
                "/tiles/NetherlandsRDNewQuad/{z}/{y}/{x}?f=mvt",
              appliedStyle := none }) := by
  obtain ⟨tmsF, styleF, proj, apOk⟩ := env
  constructor
  · cases tmsF <;> cases styleF <;> cases proj <;> cases apOk <;>
      simp [BrtLayerService.createLayer, BrtLayerService.buildVectorTileLayer,
        BrtLayerService.applyStyle, Except.isOk, Except.toBool]
  · rintro tms htms hstyle hproj
    simp only at htms hstyle hproj
    subst htms
    subst hstyle
    subst hproj
    rfl

/-- C6 witness: with a failed style fetch and the other effects succeeding,
`createLayer` resolves to the style-less layer. -/
theorem C6_createLayer_error_conditions_witness :
    (({ tileMatrixSetFetch := some sampleTileMatrixSet, styleFetch := none,
        projectionRegistered := true, applyStyleOk := true } :
          BrtLayerService.BrtEnv)).styleFetch = none ∧
    BrtLayerService.createLayer
      { tileMatrixSetFetch := some sampleTileMatrixSet, styleFetch := none,
        projectionRegistered := true, applyStyleOk := true } =
      .ok { resolutions := BrtLayerService.resolutions sampleTileMatrixSet,
            urlTemplate := BrtLayerService.pdokBaseUrl ++
              "/tiles/NetherlandsRDNewQuad/{z}/{y}/{x}?f=mvt",
            appliedStyle := none } :=
  ⟨rfl,
    (C6_createLayer_error_conditions
      { tileMatrixSetFetch := some sampleTileMatrixSet, styleFetch := none,
        projectionRegistered := true, applyStyleOk := true }).2
      sampleTileMatrixSet rfl rfl rfl⟩

/-- C10 counterexample: stored text parsing to the array `[20, "80"]` — two
entries, but not two numbers — is returned as-is by `getSavedSizes` instead
of the default `[20, 80]` the claim requires for such a value. -/
theorem C10_counterexample_second_entry_unchecked :
    App.getSavedSizes (some "[20,\"80\"]")
        (fun _ => some (.arr [.num 20, .str "80"])) =
      .arr [.num 20, .str "80"] ∧
    JsVal.arr [.num 20, .str "80"] ≠ .arr [.num 20, .num 80] := by
  refine ⟨rfl, ?_⟩
  simp

/-- C10 (amended): `getSavedSizes` returns the default `[20, 80]` when the
storage key is absent or empty, when the stored text does not parse, and
when the parsed value fails the code's validation (an array of exactly two
entries whose FIRST entry is a number); it returns the parsed value whenever
that validation accepts it — in particular the validation accepts every
two-number array, but also arrays whose second entry is not a number. -/
theorem C10_getSavedSizes (stored : Option String) (jsonParse : String → Option JsVal) :
    (stored = none →
      App.getSavedSizes stored jsonParse = .arr [.num 20, .num 80]) ∧
    (stored = some "" →
      App.getSavedSizes stored jsonParse = .arr [.num 20, .num 80]) ∧
    (∀ s, stored = some s → s ≠ "" → jsonParse s = none →
      App.getSavedSizes stored jsonParse = .arr [.num 20, .num 80]) ∧
    (∀ s v, stored = some s → s ≠ "" → jsonParse s = some v →
      App.savedSizesValid v = true → App.getSavedSizes stored jsonParse = v) ∧
    (∀ s v, stored = some s → s ≠ "" → jsonParse s = some v →
      App.savedSizesValid v = false →
      App.getSavedSizes stored jsonParse = .arr [.num 20, .num 80]) ∧
    (∀ a b : ℚ, App.savedSizesValid (.arr [.num a, .num b]) = true) ∧
    (∀ (a : ℚ) (s2 : String), App.savedSizesValid (.arr [.num a, .str s2]) = true) := by
  refine ⟨?_, ?_, ?_, ?_, ?_, ?_, ?_⟩
  · rintro rfl
    rfl
  · rintro rfl
    rfl
  · rintro s rfl hne hp
    simp [App.getSavedSizes, hne, hp]
  · rintro s v rfl hne hp hvalid
    simp [App.getSavedSizes, hne, hp, hvalid]
  · rintro s v rfl hne hp hvalid
    simp [App.getSavedSizes, hne, hp, hvalid]
  · intro a b
    rfl
  · intro a s2
    rfl

/-- C10 witness: a stored two-number array is returned as saved. -/
theorem C10_getSavedSizes_witness :
    ("[30,70]" : String) ≠ "" ∧
    App.savedSizesValid (.arr [.num 30, .num 70]) = true ∧
    App.getSavedSizes (some "[30,70]") (fun _ => some (.arr [.num 30, .num 70])) =
      .arr [.num 30, .num 70] :=
  ⟨by decide, rfl,
    (C10_getSavedSizes (some "[30,70]")
        (fun _ => some (.arr [.num 30, .num 70]))).2.2.2.1 "[30,70]"
      (.arr [.num 30, .num 70]) rfl (by decide) rfl rfl⟩

end Pdok
